import Mathlib

/-!
Verification of the isoAutomate Node SDK's leasing-and-RPC core.

The repository ships two client variants with the same external contract:
* a TypeScript client (`src/index.ts`, here suffixed `_ts`): Lua-scripted
  atomic acquire, deferred initialization via `_init_sent`, BLPOP reply wait
  wrapped in try/catch, `withRedisRetry` with transient-error classification;
* a JavaScript client (`lib/client.js`, here suffixed `_js`): SPOP+SADD
  acquire issued as two separate commands, polling GET reply wait with no
  try/catch, `redisRetry` that retries every failure.

The embedding below translates both variants.  External effects (Redis
round-trip outcomes, the filesystem, the clock, UUID generation, the
random worker shuffle) are passed in as explicit parameters, so every
definition is executable.  Redis sets are modelled as lists (membership is
what matters; SPOP's arbitrary choice is determinized to the head element,
SADD to cons).  JavaScript truthiness on optional string fields is
modelled by `Option.isSome` (the empty-string edge case is out of scope).
-/

/-- Key namespace from `config`: the source constant `REDIS_PREFIX = "ISOAUTOMATE:"`. -/
def REDIS_NS : String := "ISOAUTOMATE:"

/-- From `config`: `ASSERTION_FOLDER = path.join(SCREENSHOT_FOLDER, "failures")`
with `SCREENSHOT_FOLDER = "screenshots"`. -/
def ASSERTION_DIR : String := "screenshots/failures"

/-- A decoded reply envelope `{status: "ok"|"error"|"fail", ...}`.  Only the
fields the core reads are modelled; absent JSON fields are `none`. -/
structure Reply where
  status : String
  error : Option String := none
  screenshot_base64 : Option String := none
  video_url : Option String := none
  record_url : Option String := none
  browser_id : Option String := none
  worker : Option String := none
deriving DecidableEq, Repr

/-- The `args` object of a request.  Only the fields the core itself reads
(`selector`, `screenshot`) are modelled, plus `text` as a stand-in for the
opaque action payload. -/
structure Args where
  selector : Option String := none
  text : Option String := none
  screenshot : Option Bool := none
deriving DecidableEq, Repr

/-- The request envelope built by `_send`.  The four deferred-initialization
fields are `Option`s: `none` models the field being absent from the JSON. -/
structure Envelope where
  task_id : String
  browser_id : String
  worker_name : String
  action : String
  args : Args
  result_key : String
  video : Option Bool := none
  record : Option Bool := none
  profile_id : Option String := none
  browser_type : Option String := none
deriving DecidableEq, Repr

/-- An error thrown by the Redis driver: `code` (e.g. ETIMEDOUT) and `message`. -/
structure RedisErr where
  code : Option String := none
  message : String := ""
deriving DecidableEq, Repr

deriving instance DecidableEq for Except

/-- `s` starts with `pat` (on character lists). -/
def charsStartWith : List Char → List Char → Bool
  | _, [] => true
  | [], _ :: _ => false
  | c :: cs, d :: ds => c = d && charsStartWith cs ds

/-- `pat` occurs somewhere in the character list. -/
def charsHaveSubstr (pat : List Char) : List Char → Bool
  | [] => pat.isEmpty
  | c :: cs => charsStartWith (c :: cs) pat || charsHaveSubstr pat cs

/-- `pat` occurs as a substring of `s` (models JavaScript `message.includes(pat)`). -/
def hasSubstr (s pat : String) : Bool := charsHaveSubstr pat.toList s.toList

/-- From `src/utils.ts`: classification of transport-transient failures:
`error?.code === 'ETIMEDOUT' || error?.code === 'ECONNREFUSED' ||
error?.message?.includes('Redis')`. -/
def isRedisError (e : RedisErr) : Bool :=
  e.code = some "ETIMEDOUT" || e.code = some "ECONNREFUSED" || hasSubstr e.message "Redis"

/-- Exceptions that `_send` can throw to its caller. -/
inductive SendErr where
  /-- `BrowserError`: `Cannot perform action ...: Browser session not acquired.` -/
  | notAcquired (action : String)
  /-- a Redis driver error that escaped `_send` (e.g. the RPUSH retry wrapper threw) -/
  | transport (e : RedisErr)
deriving DecidableEq, Repr

/-- One broker command issued by the client, as seen on the wire.  The JS
polling loop is condensed to a single `pollGet` standing for the whole
polling phase. -/
inductive BrokerOp where
  | rpush (queue : String) (env : Envelope)
  | blpop (key : String) (timeout : Nat)
  | pollGet (key : String)
  | del (key : String)
deriving DecidableEq, Repr

/-- The TS client's session record (`BrowserSession` in `src/index.ts`). -/
structure SessionTs where
  browser_id : String
  worker : String
  browser_type : String
  video : Bool
  profile_id : Option String
  record : Bool
deriving DecidableEq, Repr

/-- The mutable fields of the TS `BrowserClient` the core touches. -/
structure ClientTs where
  session : Option SessionTs := none
  video_url : Option String := none
  record_url : Option String := none
  session_data : Option Reply := none
  /-- the `_init_sent` flag -/
  init_sent : Bool := false
deriving DecidableEq, Repr

/-- The JS client's session record (`this.session` in `lib/client.js`). -/
structure SessionJs where
  browserId : String
  worker : String
  browserType : String
  record : Bool
deriving DecidableEq, Repr

/-- The mutable fields of the JS `BrowserClient` the core touches. -/
structure ClientJs where
  session : Option SessionJs := none
  videoUrl : Option String := none
  sessionData : Option Reply := none
deriving DecidableEq, Repr

/-- The environment of one `_send` call: the generated task id, the outcome
of the (retry-wrapped) RPUSH, and the outcome of the reply wait —
`.ok (some r)` a reply arrived, `.ok none` the timeout elapsed,
`.error e` the driver threw. -/
structure SendOracle where
  taskId : String
  enq : Except RedisErr Unit
  wait : Except RedisErr (Option Reply)

/-- The structured timeout result: `{status: "error", error: "Timeout waiting for worker"}`. -/
def timeoutReply : Reply := { status := "error", error := some "Timeout waiting for worker" }

/-- The TS client's caught-transport result: `{status:"error", error:
`Redis RPC Error: ...`}`. -/
def rpcErrorReply (e : RedisErr) : Reply :=
  { status := "error", error := some ("Redis RPC Error: " ++ e.message) }

/-- `release()`'s early result when no session is held. -/
def notAcquiredReply : Reply := { status := "error", error := some "not_acquired" }

/-- The request payload built by the TS `_send` (`src/index.ts`): the four
deferred-initialization fields are attached only while `_init_sent` is
false, and `browser_type` only together with a set `profile_id`. -/
def mkEnvelope_ts (sess : SessionTs) (initSent : Bool) (action : String) (args : Args)
    (taskId resultKey : String) : Envelope :=
  { task_id := taskId
    browser_id := sess.browser_id
    worker_name := sess.worker
    action := action
    args := args
    result_key := resultKey
    video := if !initSent && sess.video then some true else none
    record := if !initSent && sess.record then some true else none
    profile_id := if !initSent then sess.profile_id else none
    browser_type := if !initSent && sess.profile_id.isSome then some sess.browser_type else none }

/-- The TS `_send` (`src/index.ts` lines 241-281).  Returns the result
(`.error` = a thrown exception), the updated client and the broker trace.
The try/catch wraps only the BLPOP: an RPUSH failure propagates, a BLPOP
failure is converted to a structured reply, a timeout (BLPOP returning
null) yields `timeoutReply`, and `_init_sent` is set only when a reply is
actually delivered. -/
def send_ts (st : ClientTs) (action : String) (args : Args) (timeout : Nat)
    (o : SendOracle) : Except SendErr Reply × ClientTs × List BrokerOp :=
  match st.session with
  | none => (.error (.notAcquired action), st, [])
  | some sess =>
    let result_key := REDIS_NS ++ "result:" ++ o.taskId
    let queue := REDIS_NS ++ sess.worker ++ ":tasks"
    let payload := mkEnvelope_ts sess st.init_sent action args o.taskId result_key
    match o.enq with
    | .error e => (.error (.transport e), st, [.rpush queue payload])
    | .ok _ =>
      match o.wait with
      | .ok (some r) =>
        (.ok r, { st with init_sent := true }, [.rpush queue payload, .blpop result_key timeout])
      | .ok none =>
        (.ok timeoutReply, st, [.rpush queue payload, .blpop result_key timeout])
      | .error e =>
        (.ok (rpcErrorReply e), st, [.rpush queue payload, .blpop result_key timeout])

/-- The request payload built by the JS `_send` (`lib/client.js`):
`browser_type` is always present and there are no deferred-init fields. -/
def mkEnvelope_js (sess : SessionJs) (action : String) (args : Args)
    (taskId resultKey : String) : Envelope :=
  { task_id := taskId
    browser_id := sess.browserId
    worker_name := sess.worker
    browser_type := some sess.browserType
    action := action
    args := args
    result_key := resultKey }

/-- The JS `_send` (`lib/client.js` lines 145-175).  No try/catch at all: a
failure of the RPUSH or of any polling GET propagates as an exception; a
delivered reply is DELeted and returned; expiry of the polling window
yields `timeoutReply`. -/
def send_js (st : ClientJs) (action : String) (args : Args) (timeout : Nat)
    (o : SendOracle) : Except SendErr Reply × ClientJs × List BrokerOp :=
  match st.session with
  | none => (.error (.notAcquired action), st, [])
  | some sess =>
    let result_key := REDIS_NS ++ "result:" ++ o.taskId
    let queue := REDIS_NS ++ sess.worker ++ ":tasks"
    let payload := mkEnvelope_js sess action args o.taskId result_key
    match o.enq with
    | .error e => (.error (.transport e), st, [.rpush queue payload])
    | .ok _ =>
      match o.wait with
      | .ok (some r) =>
        (.ok r, st, [.rpush queue payload, .pollGet result_key, .del result_key])
      | .ok none =>
        (.ok timeoutReply, st, [.rpush queue payload, .pollGet result_key])
      | .error e =>
        (.error (.transport e), st, [.rpush queue payload, .pollGet result_key])

/-- `String(e)` on a thrown `_send` exception, as the TS `release` catch
block stringifies it (quote characters of the source message dropped). -/
def strOfSendErr : SendErr → String
  | .notAcquired a => "BrowserError: Cannot perform action " ++ a ++ ": Browser session not acquired."
  | .transport e => "Error: " ++ e.message

/-- `e.message` on a thrown `_send` exception, as the JS `release` catch
block reads it. -/
def msgOfSendErr : SendErr → String
  | .notAcquired a => "Cannot perform action " ++ a ++ ": Browser session not acquired."
  | .transport e => e.message

/-- The structured result the TS `release` catch block returns. -/
def errReplyOfTs (e : SendErr) : Reply :=
  { status := "error", error := some (strOfSendErr e) }

/-- The structured result the JS `release` catch block returns. -/
def errReplyOfJs (e : SendErr) : Reply :=
  { status := "error", error := some (msgOfSendErr e) }

/-- The `finally { this.session = null }` of both `release` variants. -/
def clearSessionTs (st : ClientTs) : ClientTs := { st with session := none }

/-- The `finally` clause of the JS `release`. -/
def clearSessionJs (st : ClientJs) : ClientJs := { st with session := none }

/-- The tail of the TS `release` try block: `res = await this._send("release_browser")`,
`this.session_data = res`, `return res` — with the `finally` applied on both
the normal and the exceptional path. -/
def releaseFinal_ts (st : ClientTs) (acc : List BrokerOp) (o3 : SendOracle) :
    Reply × ClientTs × List BrokerOp :=
  match send_ts st "release_browser" {} 60 o3 with
  | (.error e, st3, t3) => (errReplyOfTs e, clearSessionTs st3, acc ++ t3)
  | (.ok r, st3, t3) =>
    (r, clearSessionTs { st3 with session_data := some r }, acc ++ t3)

/-- The middle of the TS `release` try block: the conditional
`stop_record` RPC (`if (this.session.record)`), capturing `record_url`. -/
def releaseAfterVideo_ts (st : ClientTs) (sess : SessionTs) (acc : List BrokerOp)
    (o2 o3 : SendOracle) : Reply × ClientTs × List BrokerOp :=
  if sess.record then
    match send_ts st "stop_record" {} 60 o2 with
    | (.error e, st2, t2) => (errReplyOfTs e, clearSessionTs st2, acc ++ t2)
    | (.ok r, st2, t2) =>
      let st2 := if r.record_url.isSome then { st2 with record_url := r.record_url } else st2
      releaseFinal_ts st2 (acc ++ t2) o3
  else releaseFinal_ts st acc o3

/-- The TS `release` (`src/index.ts` lines 206-232): early structured
`not_acquired` result when no session is held; otherwise the try block
issues the conditional `stop_video` and `stop_record` RPCs then the final
`release_browser` RPC; the catch block converts a thrown exception into a
structured error result; the `finally` clears `this.session` on every
path. -/
def release_ts (st : ClientTs) (o1 o2 o3 : SendOracle) :
    Reply × ClientTs × List BrokerOp :=
  match st.session with
  | none => (notAcquiredReply, st, [])
  | some sess =>
    if sess.video then
      match send_ts st "stop_video" {} 120 o1 with
      | (.error e, st1, t1) => (errReplyOfTs e, clearSessionTs st1, t1)
      | (.ok r, st1, t1) =>
        let st1 := if r.video_url.isSome then { st1 with video_url := r.video_url } else st1
        releaseAfterVideo_ts st1 sess t1 o2 o3
    else releaseAfterVideo_ts st sess [] o2 o3

/-- The tail of the JS `release` try block: the final `release_browser`
RPC, `this.sessionData = res`, with the `finally` applied on both paths. -/
def releaseFinal_js (st : ClientJs) (acc : List BrokerOp) (o2 : SendOracle) :
    Reply × ClientJs × List BrokerOp :=
  match send_js st "release_browser" {} 60 o2 with
  | (.error e, st2, t2) => (errReplyOfJs e, clearSessionJs st2, acc ++ t2)
  | (.ok r, st2, t2) =>
    (r, clearSessionJs { st2 with sessionData := some r }, acc ++ t2)

/-- The JS `release` (`lib/client.js` lines 117-143): early structured
`not_acquired` result when no session is held; otherwise the conditional
`stop_recording` RPC (capturing `videoUrl`), the final `release_browser`
RPC, a catch block converting exceptions into structured error results,
and a `finally` clearing `this.session` on every path. -/
def release_js (st : ClientJs) (o1 o2 : SendOracle) :
    Reply × ClientJs × List BrokerOp :=
  match st.session with
  | none => (notAcquiredReply, st, [])
  | some sess =>
    if sess.record then
      match send_js st "stop_recording" {} 120 o1 with
      | (.error e, st1, t1) => (errReplyOfJs e, clearSessionJs st1, t1)
      | (.ok r, st1, t1) =>
        let st1 := if r.video_url.isSome then { st1 with videoUrl := r.video_url } else st1
        releaseFinal_js st1 t1 o2
    else releaseFinal_js st [] o2

/-- The shared retry loop body.  `op i` is the outcome of the `(i+1)`-th
execution of the wrapped operation, `isT` the transient-failure
classifier, `retriesLeft` the remaining retry budget (`maxAttempts`
initially — the source throws once the failure counter exceeds
`maxAttempts`).  Returns the final outcome together with the list of
back-off delays slept, each `backoff * 2 ^ (n - 1)` before retry `n`. -/
def retryGo {A : Type} (op : Nat → Except RedisErr A) (isT : RedisErr → Bool)
    (backoff : Rat) : Nat → Nat → Except RedisErr A × List Rat
  | retriesLeft, callIdx =>
    match op callIdx with
    | .ok a => (.ok a, [])
    | .error e =>
      if isT e then
        match retriesLeft with
        | 0 => (.error e, [])
        | r + 1 =>
          let rest := retryGo op isT backoff r (callIdx + 1)
          (rest.1, backoff * 2 ^ callIdx :: rest.2)
      else (.error e, [])

/-- `withRedisRetry` from `src/utils.ts` (TS client): retries only failures
classified by `isRedisError`, up to `maxAttempts` retries with exponential
back-off (`backoffFactor` defaults to 0.2 seconds); any other failure is
re-thrown immediately. -/
def withRedisRetry {A : Type} (op : Nat → Except RedisErr A)
    (maxAttempts : Nat := 3) (backoffFactor : Rat := 2/10) :
    Except RedisErr A × List Rat :=
  retryGo op isRedisError backoffFactor maxAttempts 0

/-- `redisRetry` from `lib/utils.js` (JS client): the same loop but with no
classification at all — every failure is retried (backoff default 200 ms). -/
def redisRetry {A : Type} (op : Nat → Except RedisErr A)
    (maxAttempts : Nat := 3) (backoff : Rat := 200) :
    Except RedisErr A × List Rat :=
  retryGo op (fun _ => true) backoff maxAttempts 0

/-- The per-(worker, browser_type) pair of Redis sets
`ISOAUTOMATE:<worker>:<type>:free` / `...:busy`, modelled as lists. -/
structure SlotSets where
  free : List String := []
  busy : List String := []
deriving DecidableEq, Repr

/-- The broker-side pool: the free/busy sets for every (worker, type) key. -/
abbrev Pool := String → String → SlotSets

/-- Point update of one (worker, type) key of the pool. -/
def updatePool (p : Pool) (w t : String) (s : SlotSets) : Pool :=
  fun w' t' => if w' = w ∧ t' = t then s else p w' t'

/-- One `SPOP` on the free set of `(w, t)`, as issued by the JS `acquire`
(`redisRetry(() => this.redis.spop(freeKey))`): atomically removes and
returns one member (determinized to the head), touching nothing else. -/
def spopAt (p : Pool) (w t : String) : Option String × Pool :=
  match (p w t).free with
  | [] => (none, p)
  | b :: rest => (some b, updatePool p w t { p w t with free := rest })

/-- One `SADD` of `b` to the busy set of `(w, t)`, as issued by the JS
`acquire` as a second, separate command. -/
def saddBusyAt (p : Pool) (w t b : String) : Pool :=
  updatePool p w t { p w t with busy := b :: (p w t).busy }

/-- The pool effect of the JS `acquire` scan (`lib/client.js` lines
89-112): for each worker in the (already shuffled) scan order, SPOP the
free set; on the first hit, a *separate* SADD marks the id busy. -/
def acquire_js_pool : List String → String → Pool → Option (String × String) × Pool
  | [], _, p => (none, p)
  | w :: ws, t, p =>
    match spopAt p w t with
    | (none, _) => acquire_js_pool ws t p
    | (some b, p1) => (some (w, b), saddBusyAt p1 w t b)

/-- The broker states other clients can observe while the JS `acquire`
claims one id: the SPOP and the SADD are two separate client-issued
commands, so the state between them (`p1`) is visible fleet-wide. -/
def acquire_js_states : List String → String → Pool → List Pool
  | [], _, p => [p]
  | w :: ws, t, p =>
    match spopAt p w t with
    | (none, _) => acquire_js_states ws t p
    | (some b, p1) => [p, p1, saddBusyAt p1 w t b]

/-- The Lua script run by the TS `acquire` (`src/index.ts` lines 156-177):
the whole scan — SPOP from a worker's free set plus the SADD into its busy
set — executes as one server-side atomic step (the script determinizes
SPOP to the head element here; the shuffled scan order is the `workers`
argument).  Other clients can only observe the pool before or after this
single step. -/
def luaAcquire : List String → String → Pool → Option (String × String) × Pool
  | [], _, p => (none, p)
  | w :: ws, t, p =>
    match (p w t).free with
    | [] => luaAcquire ws t p
    | b :: rest =>
      (some (w, b), updatePool p w t { free := rest, busy := b :: (p w t).busy })

/-- The `profile` argument of the TS `acquire`: absent/false, `true`, or a
verbatim identifier string. -/
inductive ProfileOpt where
  | off
  | useStore
  | str (s : String)
deriving DecidableEq, Repr

/-- The profile-id resolution at the top of the TS `acquire`: `true` reads
the locally persisted id (`storedProfile`, the content of
`.iso_profiles/default_profile.id` if it exists) or mints
`user_<8 hex chars of a fresh uuid>` and persists it; a string is used
verbatim; otherwise no profile. -/
def resolveProfileId : ProfileOpt → Option String → String → Option String
  | .off, _, _ => none
  | .useStore, some stored, _ => some stored
  | .useStore, none, fresh => some ("user_" ++ fresh.take 8)
  | .str s, _, _ => some s

/-- The TS `acquire` (`src/index.ts` lines 130-204).  Parameters beyond the
source signature are the resolved external effects: the pool, the
shuffled worker scan order, the persisted profile id, a fresh uuid, the
Lua-eval transport outcome, and the oracle for the implicit first
(`get_title`) RPC.  Returns the result (`.error` models a thrown
`BrowserError` or a propagated `_send` exception), the updated client,
the updated pool, and the broker trace of the init RPC. -/
def acquire_ts (st : ClientTs) (pool : Pool) (workersOrder : List String)
    (browser_type : String) (video : Bool) (profile : ProfileOpt) (record : Bool)
    (storedProfile : Option String) (freshId : String) (luaErr : Option RedisErr)
    (o : SendOracle) : Except String Reply × ClientTs × Pool × List BrokerOp :=
  let profile_id := resolveProfileId profile storedProfile freshId
  let st := { st with init_sent := false }
  match luaErr with
  | some e => (.error ("Redis Lua Error: " ++ e.message), st, pool, [])
  | none =>
    match luaAcquire workersOrder browser_type pool with
    | (none, p1) =>
      (.error ("No browsers available for type: " ++ browser_type ++ ". Check workers."),
        st, p1, [])
    | (some (w, bid), p1) =>
      let sess : SessionTs :=
        { browser_id := bid, worker := w, browser_type := browser_type
          video := video, profile_id := profile_id, record := record }
      let st1 := { st with session := some sess }
      if profile_id.isSome || video || record then
        match send_ts st1 "get_title" {} 60 o with
        | (.error e, st2, tr) => (.error (msgOfSendErr e), st2, p1, tr)
        | (.ok _, st2, tr) =>
          (.ok { status := "ok", browser_id := some bid, worker := some w }, st2, p1, tr)
      else
        (.ok { status := "ok", browser_id := some bid, worker := some w }, st1, p1, [])

/-- A single local file write (path and data). -/
structure FileWrite where
  filePath : String
  data : String
deriving DecidableEq, Repr

/-- Exceptions the assertion handler can raise. -/
inductive AssertErr where
  /-- an exception propagated from `_send` -/
  | sendErr (e : SendErr)
  /-- `throw new Error(res.error || "Unknown assertion error")` -/
  | assertionFailed (msg : String)
deriving DecidableEq, Repr

/-- The selector sanitization of the TS `_handle_assertion`:
`(args.selector || "unknown").replace(/[#. ]/g, "_").substring(0, 20)`. -/
def sanitizeSelector (s : String) : String :=
  (String.mk (s.toList.map (fun c => if c = '#' || c = '.' || c = ' ' then '_' else c))).take 20

/-- `if (!args.screenshot) args.screenshot = true;` — JavaScript truthiness:
both an absent and a `false` screenshot flag are forced to `true`. -/
def forceScreenshot (args : Args) : Args :=
  match args.screenshot with
  | some true => args
  | _ => { args with screenshot := some true }

/-- The TS `_handle_assertion` (`src/index.ts` lines 284-306).  `fsOk`
models whether the mkdir/write of the diagnostic artifact succeeds (its
failure is caught and ignored); `ts` is the formatted timestamp the
source derives from the clock.  On a `"fail"` reply: at most one artifact
write into `ASSERTION_DIR`, then the assertion error is thrown; any other
delivered status returns `true`. -/
def handle_assertion_ts (st : ClientTs) (action : String) (args : Args)
    (o : SendOracle) (fsOk : Bool) (ts : String) :
    Except AssertErr Bool × ClientTs × List BrokerOp × List FileWrite :=
  let args := forceScreenshot args
  match send_ts st action args 60 o with
  | (.error e, st1, tr) => (.error (.sendErr e), st1, tr, [])
  | (.ok res, st1, tr) =>
    if res.status = "fail" then
      let writes :=
        match res.screenshot_base64 with
        | none => []
        | some img =>
          if fsOk then
            let selectorClean := sanitizeSelector (args.selector.getD "unknown")
            let filename := "FAIL_" ++ action ++ "_" ++ selectorClean ++ "_" ++ ts ++ ".png"
            [{ filePath := ASSERTION_DIR ++ "/" ++ filename, data := img }]
          else []
      (.error (.assertionFailed (res.error.getD "Unknown assertion error")), st1, tr, writes)
    else
      (.ok true, st1, tr, [])

/-- The JS client's failure directory (`lib/config.js`):
`ASSERTION_FOLDER = path.join(SCREENSHOT_FOLDER, "failures")` with
`SCREENSHOT_FOLDER = path.join(process.cwd(), "screenshots")`; the process
working directory is a parameter of the embedding. -/
def assertionDirJs (cwd : String) : String := cwd ++ "/screenshots/failures"

/-- The selector sanitization of the JS `_handleAssertion`
(`lib/client.js`): `(args.selector || "unknown").replace(/[#\.\s]/g, "_")
.substring(0, 20)` — the `\s` class is modelled by `Char.isWhitespace`. -/
def sanitizeSelectorJs (s : String) : String :=
  (String.mk (s.toList.map
    (fun c => if c = '#' || c = '.' || c.isWhitespace then '_' else c))).take 20

/-- `if (args.screenshot === undefined) args.screenshot = true;` — the JS
handler forces the flag only when it is absent (unlike the TS one, which
also overrides an explicit `false`). -/
def forceScreenshotJs (args : Args) : Args :=
  match args.screenshot with
  | none => { args with screenshot := some true }
  | some _ => args

/-- The JS `_handleAssertion` (`lib/client.js` lines 179-206).  `fsOk`
models whether the mkdir/write of the diagnostic artifact succeeds (its
failure is caught, logged and ignored); `ts` is the formatted timestamp
the source derives from the clock; `cwd` the process working directory.
On a `"fail"` reply: at most one artifact write into the failure
directory, then `new Error(res.error || "Unknown assertion error")` is
thrown; any other delivered status returns `true`; an exception from
`_send` propagates. -/
def handle_assertion_js (st : ClientJs) (action : String) (args : Args)
    (o : SendOracle) (fsOk : Bool) (ts : String) (cwd : String) :
    Except AssertErr Bool × ClientJs × List BrokerOp × List FileWrite :=
  let args := forceScreenshotJs args
  match send_js st action args 60 o with
  | (.error e, st1, tr) => (.error (.sendErr e), st1, tr, [])
  | (.ok res, st1, tr) =>
    if res.status = "fail" then
      let writes :=
        match res.screenshot_base64 with
        | none => []
        | some img =>
          if fsOk then
            let selectorClean := sanitizeSelectorJs (args.selector.getD "unknown")
            let filename := "FAIL_" ++ action ++ "_" ++ selectorClean ++ "_" ++ ts ++ ".png"
            [{ filePath := assertionDirJs cwd ++ "/" ++ filename, data := img }]
          else []
      (.error (.assertionFailed (res.error.getD "Unknown assertion error")), st1, tr, writes)
    else
      (.ok true, st1, tr, [])

/-- The JS client-level `acquire` (`lib/client.js` lines 79-115).  The
already shuffled worker scan order and the oracle for the conditional
`start_recording` RPC are parameters; the broker-side effect of the scan
is `acquire_js_pool` (its two-command non-atomicity is modelled by
`acquire_js_states`).  On a successful pop the session is overwritten
with the new lease; if `record` is set, a `start_recording` RPC (timeout
5) is issued, whose thrown exception would propagate; with no free
browser anywhere, a `BrowserError` is thrown. -/
def acquire_js (st : ClientJs) (pool : Pool) (workersOrder : List String)
    (browserType : String) (record : Bool) (o : SendOracle) :
    Except String Reply × ClientJs × Pool × List BrokerOp :=
  match acquire_js_pool workersOrder browserType pool with
  | (none, p1) =>
    (.error ("No browsers available for type: " ++ browserType ++ ". Check your workers."),
      st, p1, [])
  | (some (w, bid), p1) =>
    let sess : SessionJs :=
      { browserId := bid, worker := w, browserType := browserType, record := record }
    let st1 := { st with session := some sess }
    if record then
      match send_js st1 "start_recording" {} 5 o with
      | (.error e, st2, tr) => (.error (msgOfSendErr e), st2, p1, tr)
      | (.ok _, st2, tr) =>
        (.ok { status := "ok", browser_id := some bid, worker := some w }, st2, p1, tr)
    else
      (.ok { status := "ok", browser_id := some bid, worker := some w }, st1, p1, [])

/-! ### Concrete sample data used to instantiate the theorems below -/

/-- A plain acquired TS session (no video/record/profile). -/
def sampleSessTs : SessionTs :=
  { browser_id := "b1", worker := "w1", browser_type := "chrome"
    video := false, profile_id := none, record := false }

/-- A TS session acquired with `video = true`. -/
def sampleVideoSess : SessionTs := { sampleSessTs with video := true }

/-- A plain acquired JS session. -/
def sampleSessJs : SessionJs :=
  { browserId := "b1", worker := "w1", browserType := "chrome", record := false }

/-- A connection-refused driver error (classified transport-transient). -/
def sampleErr : RedisErr := { code := some "ECONNREFUSED", message := "connect ECONNREFUSED" }

/-- A failure that is not transport-transient (e.g. a malformed call). -/
def nonTransientErr : RedisErr := { code := none, message := "malformed call" }

/-- A timed-out driver error (classified transport-transient). -/
def transientErr : RedisErr := { code := some "ETIMEDOUT", message := "timed out" }

/-- An operation that fails non-transiently on its first execution only. -/
def sampleNonTransientOp : Nat → Except RedisErr Nat :=
  fun i => if i = 0 then .error nonTransientErr else .ok 42

/-- An operation that fails transiently twice, then succeeds. -/
def sampleFlakyOp : Nat → Except RedisErr Nat :=
  fun i => if i < 2 then .error transientErr else .ok 42

/-- An operation that fails transiently on every execution. -/
def sampleFailingOp : Nat → Except RedisErr Nat := fun _ => .error transientErr

/-- A sample pool: worker `w1` has two free chrome browsers, worker `w0`
has one busy chrome browser (`x0`, held by some other client). -/
def samplePool : Pool := fun w t =>
  if w = "w1" ∧ t = "chrome" then { free := ["b1", "b2"], busy := [] }
  else if w = "w0" ∧ t = "chrome" then { free := [], busy := ["x0"] }
  else { free := [], busy := [] }

/-- A failed-assertion reply carrying a diagnostic screenshot. -/
def sampleFailReply : Reply :=
  { status := "fail", error := some "Text not found", screenshot_base64 := some "imgdata" }

/-! ### Helper lemmas -/

theorem updatePool_same (p : Pool) (w t : String) (s : SlotSets) :
    updatePool p w t s w t = s := by
  simp [updatePool]

theorem updatePool_other (p : Pool) (w t : String) (s : SlotSets) (w' t' : String)
    (h : ¬(w' = w ∧ t' = t)) : updatePool p w t s w' t' = p w' t' := by
  simp [updatePool, h]

theorem luaAcquire_pops (t : String) :
    ∀ (ws : List String) (p p' : Pool) (w b : String),
    luaAcquire ws t p = (some (w, b), p') →
    (p w t).free = b :: (p' w t).free ∧ (p' w t).busy = b :: (p w t).busy ∧
    ∀ w' t', ¬(w' = w ∧ t' = t) → p' w' t' = p w' t' := by
  intro ws
  induction ws with
  | nil => intro p p' w b h; simp [luaAcquire] at h
  | cons w0 ws ih =>
    intro p p' w b h
    rw [luaAcquire] at h
    cases hf : (p w0 t).free with
    | nil => rw [hf] at h; exact ih p p' w b h
    | cons b0 rest =>
      rw [hf] at h
      simp only [Prod.mk.injEq, Option.some.injEq] at h
      obtain ⟨⟨rfl, rfl⟩, rfl⟩ := h
      refine ⟨?_, ?_, ?_⟩
      · rw [updatePool_same, hf]
      · rw [updatePool_same]
      · intro w' t' hne; exact updatePool_other _ _ _ _ _ _ hne

theorem luaAcquire_busy_mono (t : String) :
    ∀ (ws : List String) (p : Pool) (w' t' b : String),
    b ∈ (p w' t').busy → b ∈ ((luaAcquire ws t p).2 w' t').busy := by
  intro ws
  induction ws with
  | nil => intro p w' t' b h; simpa [luaAcquire] using h
  | cons w0 ws ih =>
    intro p w' t' b h
    rw [luaAcquire]
    cases hf : (p w0 t).free with
    | nil => exact ih p w' t' b h
    | cons b0 rest =>
      show b ∈ (updatePool p w0 t { free := rest, busy := b0 :: (p w0 t).busy } w' t').busy
      by_cases hk : w' = w0 ∧ t' = t
      · obtain ⟨rfl, rfl⟩ := hk
        rw [updatePool_same]
        exact List.mem_cons_of_mem _ h
      · rw [updatePool_other _ _ _ _ _ _ hk]
        exact h

theorem acquire_js_pops (t : String) :
    ∀ (ws : List String) (p p' : Pool) (w b : String),
    acquire_js_pool ws t p = (some (w, b), p') →
    (p w t).free = b :: (p' w t).free ∧ (p' w t).busy = b :: (p w t).busy ∧
    ∀ w' t', ¬(w' = w ∧ t' = t) → p' w' t' = p w' t' := by
  intro ws
  induction ws with
  | nil => intro p p' w b h; simp [acquire_js_pool] at h
  | cons w0 ws ih =>
    intro p p' w b h
    rw [acquire_js_pool] at h
    cases hf : (p w0 t).free with
    | nil => rw [spopAt, hf] at h; exact ih p p' w b h
    | cons b0 rest =>
      rw [spopAt, hf] at h
      simp only [Prod.mk.injEq, Option.some.injEq] at h
      obtain ⟨⟨rfl, rfl⟩, rfl⟩ := h
      refine ⟨?_, ?_, ?_⟩
      · rw [saddBusyAt, updatePool_same, updatePool_same, hf]
      · rw [saddBusyAt, updatePool_same, updatePool_same]
      · intro w' t' hne
        rw [saddBusyAt, updatePool_other _ _ _ _ _ _ hne, updatePool_other _ _ _ _ _ _ hne]

theorem acquire_js_busy_mono (t : String) :
    ∀ (ws : List String) (p : Pool) (w' t' b : String),
    b ∈ (p w' t').busy → b ∈ ((acquire_js_pool ws t p).2 w' t').busy := by
  intro ws
  induction ws with
  | nil => intro p w' t' b h; simpa [acquire_js_pool] using h
  | cons w0 ws ih =>
    intro p w' t' b h
    rw [acquire_js_pool]
    cases hf : (p w0 t).free with
    | nil => rw [spopAt, hf]; exact ih p w' t' b h
    | cons b0 rest =>
      rw [spopAt, hf]
      show b ∈
        ((saddBusyAt (updatePool p w0 t { free := rest, busy := (p w0 t).busy }) w0 t b0) w' t').busy
      by_cases hk : w' = w0 ∧ t' = t
      · obtain ⟨rfl, rfl⟩ := hk
        simp only [saddBusyAt, updatePool_same]
        exact List.mem_cons_of_mem _ h
      · rw [saddBusyAt, updatePool_other _ _ _ _ _ _ hk, updatePool_other _ _ _ _ _ _ hk]
        exact h

theorem pop_pair_distinct (p p1 : Pool) (t w1 b1 w2 b2 : String)
    (hfree : (p w1 t).free = b1 :: (p1 w1 t).free)
    (h2 : b2 ∈ (p1 w2 t).free)
    (hnd : ((p w1 t).free).Nodup) :
    ¬(w1 = w2 ∧ b1 = b2) := by
  rintro ⟨rfl, rfl⟩
  rw [hfree] at hnd
  exact (List.nodup_cons.mp hnd).1 h2

theorem releaseFinal_ts_clears (st : ClientTs) (acc : List BrokerOp) (o3 : SendOracle) :
    (releaseFinal_ts st acc o3).2.1.session = none := by
  rcases hs : send_ts st "release_browser" {} 60 o3 with ⟨r, st3, t3⟩
  rw [releaseFinal_ts, hs]
  cases r <;> simp [clearSessionTs]

theorem releaseAfterVideo_ts_clears (st : ClientTs) (sess : SessionTs) (acc : List BrokerOp)
    (o2 o3 : SendOracle) :
    (releaseAfterVideo_ts st sess acc o2 o3).2.1.session = none := by
  rw [releaseAfterVideo_ts]
  cases hr : sess.record with
  | false => simp only [hr, Bool.false_eq_true, if_false]; exact releaseFinal_ts_clears _ _ _
  | true =>
    simp only [hr, if_true]
    rcases hs : send_ts st "stop_record" {} 60 o2 with ⟨r, st2, t2⟩
    cases r with
    | error e => simp [clearSessionTs]
    | ok rr => dsimp only; exact releaseFinal_ts_clears _ _ _

theorem release_ts_clears (st : ClientTs) (o1 o2 o3 : SendOracle) :
    (release_ts st o1 o2 o3).2.1.session = none := by
  rw [release_ts]
  cases hs : st.session with
  | none => exact hs
  | some sess =>
    cases hv : sess.video with
    | false =>
      simp only [hv, Bool.false_eq_true, if_false]
      exact releaseAfterVideo_ts_clears _ _ _ _ _
    | true =>
      simp only [hv, if_true]
      rcases hsend : send_ts st "stop_video" {} 120 o1 with ⟨r, st1, t1⟩
      cases r with
      | error e => simp [clearSessionTs]
      | ok rr => dsimp only; exact releaseAfterVideo_ts_clears _ _ _ _ _

theorem releaseFinal_js_clears (st : ClientJs) (acc : List BrokerOp) (o2 : SendOracle) :
    (releaseFinal_js st acc o2).2.1.session = none := by
  rcases hs : send_js st "release_browser" {} 60 o2 with ⟨r, st2, t2⟩
  rw [releaseFinal_js, hs]
  cases r <;> simp [clearSessionJs]

theorem release_js_clears (st : ClientJs) (o1 o2 : SendOracle) :
    (release_js st o1 o2).2.1.session = none := by
  rw [release_js]
  cases hs : st.session with
  | none => exact hs
  | some sess =>
    cases hr : sess.record with
    | false =>
      simp only [hr, Bool.false_eq_true, if_false]
      exact releaseFinal_js_clears _ _ _
    | true =>
      simp only [hr, if_true]
      rcases hsend : send_js st "stop_recording" {} 120 o1 with ⟨r, st1, t1⟩
      cases r with
      | error e => simp [clearSessionJs]
      | ok rr => dsimp only; exact releaseFinal_js_clears _ _ _

theorem retryGo_step_ok {A : Type} (op : Nat → Except RedisErr A) (isT : RedisErr → Bool)
    (b : Rat) (r i : Nat) (a : A) (hok : op i = .ok a) :
    retryGo op isT b r i = (.ok a, []) := by
  rw [retryGo, hok]

theorem retryGo_step_nonT {A : Type} (op : Nat → Except RedisErr A) (isT : RedisErr → Bool)
    (b : Rat) (r i : Nat) (e : RedisErr) (he : op i = .error e) (hT : isT e = false) :
    retryGo op isT b r i = (.error e, []) := by
  rw [retryGo, he]
  simp only [hT, Bool.false_eq_true, if_false]

theorem retryGo_step_stop {A : Type} (op : Nat → Except RedisErr A) (isT : RedisErr → Bool)
    (b : Rat) (i : Nat) (e : RedisErr) (he : op i = .error e) (hT : isT e = true) :
    retryGo op isT b 0 i = (.error e, []) := by
  rw [retryGo, he]
  simp only [hT, if_true]

theorem retryGo_step_retry {A : Type} (op : Nat → Except RedisErr A) (isT : RedisErr → Bool)
    (b : Rat) (r i : Nat) (e : RedisErr) (he : op i = .error e) (hT : isT e = true) :
    retryGo op isT b (r + 1) i =
      ((retryGo op isT b r (i + 1)).1, b * 2 ^ i :: (retryGo op isT b r (i + 1)).2) := by
  rw [retryGo, he]
  simp only [hT, if_true]

theorem delay_list_shift (b : Rat) (i k : Nat) :
    b * 2 ^ i :: (List.range k).map (fun j => b * 2 ^ ((i + 1) + j)) =
    (List.range (k + 1)).map (fun j => b * 2 ^ (i + j)) := by
  rw [List.range_succ_eq_map, List.map_cons, List.map_map]
  have hfg : (fun j => b * 2 ^ ((i + 1) + j)) = ((fun j => b * 2 ^ (i + j)) ∘ Nat.succ) := by
    funext j
    simp only [Function.comp_apply]
    rw [show (i + 1) + j = i + (j + 1) from by omega]
  rw [hfg, Nat.add_zero]

theorem retryGo_ok_of {A : Type} (op : Nat → Except RedisErr A) (isT : RedisErr → Bool)
    (b : Rat) (a : A) :
    ∀ (k i r : Nat), k ≤ r →
    (∀ j, j < k → ∃ e, op (i + j) = .error e ∧ isT e = true) →
    op (i + k) = .ok a →
    retryGo op isT b r i = (.ok a, (List.range k).map (fun j => b * 2 ^ (i + j))) := by
  intro k
  induction k with
  | zero =>
    intro i r _ _ hok
    rw [Nat.add_zero] at hok
    rw [retryGo_step_ok op isT b r i a hok]
    simp
  | succ k ih =>
    intro i r hkr hfail hok
    obtain ⟨e, he, hT⟩ := hfail 0 (by omega)
    rw [Nat.add_zero] at he
    cases r with
    | zero => omega
    | succ r' =>
      have hfail' : ∀ j, j < k → ∃ e, op ((i + 1) + j) = .error e ∧ isT e = true := by
        intro j hj
        have hh := hfail (j + 1) (by omega)
        rwa [show i + (j + 1) = (i + 1) + j from by omega] at hh
      have hok' : op ((i + 1) + k) = .ok a := by
        rwa [show i + (k + 1) = (i + 1) + k from by omega] at hok
      have ihr := ih (i + 1) r' (by omega) hfail' hok'
      rw [retryGo_step_retry op isT b r' i e he hT, ihr]
      dsimp only
      rw [Prod.mk.injEq]
      exact ⟨rfl, delay_list_shift b i k⟩

theorem retryGo_exhausts {A : Type} (op : Nat → Except RedisErr A) (isT : RedisErr → Bool)
    (b : Rat) (eF : Nat → RedisErr) :
    ∀ (r i : Nat),
    (∀ j, j ≤ r → op (i + j) = .error (eF (i + j)) ∧ isT (eF (i + j)) = true) →
    retryGo op isT b r i =
      (.error (eF (i + r)), (List.range r).map (fun j => b * 2 ^ (i + j))) := by
  intro r
  induction r with
  | zero =>
    intro i h
    obtain ⟨he, hT⟩ := h 0 (by omega)
    rw [Nat.add_zero] at he hT
    rw [retryGo_step_stop op isT b i (eF i) he hT]
    simp
  | succ r' ih =>
    intro i h
    obtain ⟨he, hT⟩ := h 0 (by omega)
    rw [Nat.add_zero] at he hT
    have h' : ∀ j, j ≤ r' →
        op ((i + 1) + j) = .error (eF ((i + 1) + j)) ∧ isT (eF ((i + 1) + j)) = true := by
      intro j hj
      have hh := h (j + 1) (by omega)
      rwa [show i + (j + 1) = (i + 1) + j from by omega] at hh
    have ihr := ih (i + 1) h'
    rw [retryGo_step_retry op isT b r' i (eF i) he hT, ihr]
    dsimp only
    rw [Prod.mk.injEq]
    constructor
    · rw [show (i + 1) + r' = i + (r' + 1) from by omega]
    · exact delay_list_shift b i r'

theorem send_ts_preserves_session (st : ClientTs) (action : String) (args : Args)
    (t : Nat) (o : SendOracle) :
    (send_ts st action args t o).2.1.session = st.session := by
  rw [send_ts]
  cases hs : st.session with
  | none => exact hs
  | some sess =>
    rcases o with ⟨tid, enq, w⟩
    cases enq with
    | error e => exact hs
    | ok u =>
      cases w with
      | error e => exact hs
      | ok r => cases r with
        | none => exact hs
        | some rr => rfl

theorem send_js_state_id (st : ClientJs) (action : String) (args : Args)
    (t : Nat) (o : SendOracle) :
    (send_js st action args t o).2.1 = st := by
  rw [send_js]
  cases hs : st.session with
  | none => rfl
  | some sess =>
    rcases o with ⟨tid, enq, w⟩
    cases enq with
    | error e => rfl
    | ok u =>
      cases w with
      | error e => rfl
      | ok r => cases r with
        | none => rfl
        | some rr => rfl

theorem send_js_trace_actions (st : ClientJs) (action : String) (args : Args)
    (t : Nat) (o : SendOracle) :
    ∀ q env, BrokerOp.rpush q env ∈ (send_js st action args t o).2.2 → env.action = action := by
  intro q env hmem
  rw [send_js] at hmem
  cases hs : st.session with
  | none => rw [hs] at hmem; simp at hmem
  | some sess =>
    rw [hs] at hmem
    rcases o with ⟨tid, enq, wq⟩
    cases enq with
    | error e =>
      simp only [List.mem_singleton] at hmem
      rw [show env = mkEnvelope_js sess action args tid
            (REDIS_NS ++ "result:" ++ tid) from by injection hmem]
      rfl
    | ok u =>
      cases wq with
      | error e =>
        simp only [List.mem_cons, List.not_mem_nil, or_false] at hmem
        rcases hmem with hmem | hmem
        · rw [show env = mkEnvelope_js sess action args tid
              (REDIS_NS ++ "result:" ++ tid) from by injection hmem]
          rfl
        · exact absurd hmem (by simp)
      | ok rq =>
        cases rq with
        | none =>
          simp only [List.mem_cons, List.not_mem_nil, or_false] at hmem
          rcases hmem with hmem | hmem
          · rw [show env = mkEnvelope_js sess action args tid
                (REDIS_NS ++ "result:" ++ tid) from by injection hmem]
            rfl
          · exact absurd hmem (by simp)
        | some rr =>
          simp only [List.mem_cons, List.not_mem_nil, or_false] at hmem
          rcases hmem with hmem | hmem | hmem
          · rw [show env = mkEnvelope_js sess action args tid
                (REDIS_NS ++ "result:" ++ tid) from by injection hmem]
            rfl
          · exact absurd hmem (by simp)
          · exact absurd hmem (by simp)

theorem forceScreenshotJs_selector (args : Args) :
    (forceScreenshotJs args).selector = args.selector := by
  rcases args with ⟨sel, tx, sc⟩
  rcases sc with _ | b
  · rfl
  · rfl

/-! ### Claims -/

/-- Claim C3: on every exit path of `release()` — normal return, structured
RPC error, or caught exception — the local session record is set to `null`
before `release()` returns (in both client variants), so a subsequent
`acquire()` starts from a cleared state. -/
theorem C3_release_always_clears (st : ClientTs) (o1 o2 o3 : SendOracle)
    (stJ : ClientJs) (p1 p2 : SendOracle) :
    (release_ts st o1 o2 o3).2.1.session = none ∧
    (release_js stJ p1 p2).2.1.session = none :=
  ⟨release_ts_clears st o1 o2 o3, release_js_clears stJ p1 p2⟩

/-- Claim C5: in both client variants, an RPC issued with no lease held
(`session = null`) throws the `SessionNotAcquired` `BrowserError`
immediately, leaves the client unchanged, and performs no broker I/O
(empty broker trace). -/
theorem C5_send_without_lease (st : ClientTs) (stJ : ClientJs) (action : String)
    (args : Args) (t : Nat) (o : SendOracle)
    (h : st.session = none) (hJ : stJ.session = none) :
    send_ts st action args t o = (.error (.notAcquired action), st, []) ∧
    send_js stJ action args t o = (.error (.notAcquired action), stJ, []) := by
  constructor
  · rw [send_ts, h]
  · rw [send_js, hJ]

theorem C5_send_without_lease_witness :
    send_ts {} "click" {} 60 ⟨"t1", .ok (), .ok none⟩ =
      (.error (.notAcquired "click"), {}, []) ∧
    send_js {} "click" {} 60 ⟨"t1", .ok (), .ok none⟩ =
      (.error (.notAcquired "click"), {}, []) :=
  C5_send_without_lease {} {} "click" {} 60 ⟨"t1", .ok (), .ok none⟩ rfl rfl

/-- Claim C10: `release()` with no session held returns the structured
`{status:"error", error:"not_acquired"}` value (it does not throw: the
result type is a plain reply), performs no broker I/O, and leaves the
client unchanged — in both variants; consequently a second `release()`
right after a first one is such a no-op, since the first always clears
the session. -/
theorem C10_release_without_lease (st : ClientTs) (stJ : ClientJs)
    (o1 o2 o3 o1' o2' o3' p1 p2 p1' p2' : SendOracle)
    (h : st.session = none) (hJ : stJ.session = none) :
    release_ts st o1 o2 o3 = (notAcquiredReply, st, []) ∧
    release_js stJ p1 p2 = (notAcquiredReply, stJ, []) ∧
    (∀ st0 : ClientTs, release_ts (release_ts st0 o1 o2 o3).2.1 o1' o2' o3' =
      (notAcquiredReply, (release_ts st0 o1 o2 o3).2.1, [])) ∧
    (∀ stJ0 : ClientJs, release_js (release_js stJ0 p1 p2).2.1 p1' p2' =
      (notAcquiredReply, (release_js stJ0 p1 p2).2.1, [])) := by
  have hts : ∀ (st0 : ClientTs) (a b c : SendOracle), st0.session = none →
      release_ts st0 a b c = (notAcquiredReply, st0, []) := by
    intro st0 a b c h0
    rw [release_ts, h0]
  have hjs : ∀ (stJ0 : ClientJs) (a b : SendOracle), stJ0.session = none →
      release_js stJ0 a b = (notAcquiredReply, stJ0, []) := by
    intro stJ0 a b h0
    rw [release_js, h0]
  exact ⟨hts st o1 o2 o3 h, hjs stJ p1 p2 hJ,
    fun st0 => hts _ o1' o2' o3' (release_ts_clears st0 o1 o2 o3),
    fun stJ0 => hjs _ p1' p2' (release_js_clears stJ0 p1 p2)⟩

theorem C10_release_without_lease_witness :
    release_ts {} ⟨"a", .ok (), .ok none⟩ ⟨"b", .ok (), .ok none⟩ ⟨"c", .ok (), .ok none⟩ =
      (notAcquiredReply, {}, []) ∧
    release_js {} ⟨"a", .ok (), .ok none⟩ ⟨"b", .ok (), .ok none⟩ =
      (notAcquiredReply, {}, []) := by
  have h := C10_release_without_lease {} {}
    ⟨"a", .ok (), .ok none⟩ ⟨"b", .ok (), .ok none⟩ ⟨"c", .ok (), .ok none⟩
    ⟨"a", .ok (), .ok none⟩ ⟨"b", .ok (), .ok none⟩ ⟨"c", .ok (), .ok none⟩
    ⟨"a", .ok (), .ok none⟩ ⟨"b", .ok (), .ok none⟩
    ⟨"a", .ok (), .ok none⟩ ⟨"b", .ok (), .ok none⟩ rfl rfl
  exact ⟨h.1, h.2.1⟩

/-- Claim C2, counterexample to the transport-failure half: in the TS
client a broker failure during the enqueue (the retry-wrapped RPUSH
throwing) propagates out of `_send` as an exception rather than being
returned as a structured error result, and in the JS client even a broker
failure during the reply wait propagates. -/
theorem C2_counterexample :
    (send_ts { session := some sampleSessTs } "click" {} 60
        ⟨"t1", .error sampleErr, .ok none⟩).1 = .error (.transport sampleErr) ∧
    (send_js { session := some sampleSessJs } "click" {} 60
        ⟨"t1", .ok (), .error sampleErr⟩).1 = .error (.transport sampleErr) := by
  exact ⟨rfl, rfl⟩

/-- Claim C2 (amended): in both variants an RPC that sees no reply within
the timeout returns (does not throw) the structured
`{status:"error", error:"Timeout waiting for worker"}` value.  A broker
transport failure during the reply wait is returned as a structured error
result in the TS client only; in the JS client it propagates as an
exception, and in both clients a transport failure during the enqueue
propagates as an exception. -/
theorem C2_amended (st : ClientTs) (sess : SessionTs) (stJ : ClientJs) (sessJ : SessionJs)
    (action : String) (args : Args) (t : Nat) (tid : String) (e : RedisErr)
    (w : Except RedisErr (Option Reply))
    (h : st.session = some sess) (hJ : stJ.session = some sessJ) :
    (send_ts st action args t ⟨tid, .ok (), .ok none⟩).1 = .ok timeoutReply ∧
    (send_ts st action args t ⟨tid, .ok (), .error e⟩).1 = .ok (rpcErrorReply e) ∧
    (send_ts st action args t ⟨tid, .error e, w⟩).1 = .error (.transport e) ∧
    (send_js stJ action args t ⟨tid, .ok (), .ok none⟩).1 = .ok timeoutReply ∧
    (send_js stJ action args t ⟨tid, .ok (), .error e⟩).1 = .error (.transport e) ∧
    (send_js stJ action args t ⟨tid, .error e, w⟩).1 = .error (.transport e) := by
  refine ⟨?_, ?_, ?_, ?_, ?_, ?_⟩ <;> simp [send_ts, send_js, h, hJ]

theorem C2_amended_witness :
    (send_ts { session := some sampleSessTs } "click" {} 60
        ⟨"t1", .ok (), .ok none⟩).1 = .ok timeoutReply ∧
    (send_js { session := some sampleSessJs } "click" {} 60
        ⟨"t1", .ok (), .ok none⟩).1 = .ok timeoutReply := by
  have h := C2_amended { session := some sampleSessTs } sampleSessTs
    { session := some sampleSessJs } sampleSessJs "click" {} 60 "t1" sampleErr (.ok none)
    rfl rfl
  exact ⟨h.1, h.2.2.2.1⟩

theorem forceScreenshot_selector (args : Args) :
    (forceScreenshot args).selector = args.selector := by
  rcases args with ⟨sel, tx, sc⟩
  rcases sc with _ | b
  · rfl
  · cases b <;> rfl

/-- Claim C8, counterexample: in the JS client a broker failure during the
reply wait propagates out of `_send` as an exception, so the assertion
handler propagates it too — no structured `{status:"error"}` reply exists
there, and the transport-failed assertion call is *not* reported as if
the assertion had passed. -/
theorem C8_counterexample :
    (handle_assertion_js { session := some sampleSessJs } "assert_text" {}
        ⟨"t1", .ok (), .error sampleErr⟩ true "ts1" "/app").1 =
      .error (.sendErr (.transport sampleErr)) := by
  rfl

/-- Claim C8 (amended): both assertion handlers raise exactly when the
delivered reply's status equals `"fail"` and return `true` for any other
delivered status — including the structured timeout reply, so a
timed-out assertion call is reported as if it had passed in both
variants.  A broker failure during the reply wait is likewise reported as
passed only in the TS variant (whose `_send` converts it into a
structured error reply); in the JS variant it propagates as an exception
(no structured reply exists there). -/
theorem C8_assertion_raises_iff_fail (st : ClientTs) (sess : SessionTs) (stJ : ClientJs)
    (sessJ : SessionJs) (action : String)
    (args : Args) (tid : String) (fsOk : Bool) (ts : String) (cwd : String)
    (r : Reply) (e : RedisErr)
    (h : st.session = some sess) (hJ : stJ.session = some sessJ) :
    ((handle_assertion_ts st action args ⟨tid, .ok (), .ok (some r)⟩ fsOk ts).1 =
        .error (.assertionFailed (r.error.getD "Unknown assertion error")) ↔
      r.status = "fail") ∧
    (r.status ≠ "fail" →
      (handle_assertion_ts st action args ⟨tid, .ok (), .ok (some r)⟩ fsOk ts).1 = .ok true) ∧
    (handle_assertion_ts st action args ⟨tid, .ok (), .ok none⟩ fsOk ts).1 = .ok true ∧
    (handle_assertion_ts st action args ⟨tid, .ok (), .error e⟩ fsOk ts).1 = .ok true ∧
    ((handle_assertion_js stJ action args ⟨tid, .ok (), .ok (some r)⟩ fsOk ts cwd).1 =
        .error (.assertionFailed (r.error.getD "Unknown assertion error")) ↔
      r.status = "fail") ∧
    (r.status ≠ "fail" →
      (handle_assertion_js stJ action args ⟨tid, .ok (), .ok (some r)⟩ fsOk ts cwd).1 =
        .ok true) ∧
    (handle_assertion_js stJ action args ⟨tid, .ok (), .ok none⟩ fsOk ts cwd).1 = .ok true ∧
    (handle_assertion_js stJ action args ⟨tid, .ok (), .error e⟩ fsOk ts cwd).1 =
      .error (.sendErr (.transport e)) := by
  refine ⟨?_, ?_, ?_, ?_, ?_, ?_, ?_, ?_⟩
  · by_cases hst : r.status = "fail"
    · simp [handle_assertion_ts, send_ts, h, hst]
    · simp [handle_assertion_ts, send_ts, h, hst]
  · intro hst
    simp [handle_assertion_ts, send_ts, h, hst]
  · simp [handle_assertion_ts, send_ts, h, timeoutReply]
  · simp [handle_assertion_ts, send_ts, h, rpcErrorReply]
  · by_cases hst : r.status = "fail"
    · simp [handle_assertion_js, send_js, hJ, hst]
    · simp [handle_assertion_js, send_js, hJ, hst]
  · intro hst
    simp [handle_assertion_js, send_js, hJ, hst]
  · simp [handle_assertion_js, send_js, hJ, timeoutReply]
  · simp [handle_assertion_js, send_js, hJ]

theorem C8_assertion_raises_iff_fail_witness :
    (handle_assertion_ts { session := some sampleSessTs } "assert_text" {}
        ⟨"t1", .ok (), .ok (some sampleFailReply)⟩ true "ts1").1 =
      .error (.assertionFailed "Text not found") ∧
    (handle_assertion_ts { session := some sampleSessTs } "assert_text" {}
        ⟨"t1", .ok (), .ok none⟩ true "ts1").1 = .ok true ∧
    (handle_assertion_js { session := some sampleSessJs } "assert_text" {}
        ⟨"t1", .ok (), .ok (some sampleFailReply)⟩ true "ts1" "/app").1 =
      .error (.assertionFailed "Text not found") ∧
    (handle_assertion_js { session := some sampleSessJs } "assert_text" {}
        ⟨"t1", .ok (), .ok none⟩ true "ts1" "/app").1 = .ok true := by
  have h := C8_assertion_raises_iff_fail { session := some sampleSessTs } sampleSessTs
    { session := some sampleSessJs } sampleSessJs
    "assert_text" {} "t1" true "ts1" "/app" sampleFailReply sampleErr rfl rfl
  exact ⟨h.1.mpr rfl, h.2.2.1, h.2.2.2.2.1.mpr rfl, h.2.2.2.2.2.2.1⟩

/-- Claim C7: for an assertion reply with status `"fail"` carrying a
diagnostic image, both handlers (the TS `_handle_assertion` and the JS
`_handleAssertion`) raise the assertion error carrying the
remote-supplied message (or the generic fallback), and write exactly one
artifact into their failure directory, named from the action, the
sanitized selector and the timestamp, when the filesystem cooperates —
and write nothing but raise the very same assertion error when persisting
fails (the write failure is swallowed). -/
theorem C7_assertion_artifact (st : ClientTs) (sess : SessionTs) (stJ : ClientJs)
    (sessJ : SessionJs) (action : String)
    (args : Args) (tid : String) (fsOk : Bool) (ts : String) (cwd : String)
    (r : Reply) (img : String)
    (h : st.session = some sess) (hJ : stJ.session = some sessJ)
    (hst : r.status = "fail") (himg : r.screenshot_base64 = some img) :
    (handle_assertion_ts st action args ⟨tid, .ok (), .ok (some r)⟩ fsOk ts).1 =
      .error (.assertionFailed (r.error.getD "Unknown assertion error")) ∧
    (handle_assertion_ts st action args ⟨tid, .ok (), .ok (some r)⟩ fsOk ts).2.2.2 =
      (if fsOk then
        [{ filePath := ASSERTION_DIR ++ "/" ++
             ("FAIL_" ++ action ++ "_" ++ sanitizeSelector (args.selector.getD "unknown") ++
              "_" ++ ts ++ ".png")
           data := img }]
       else []) ∧
    (handle_assertion_js stJ action args ⟨tid, .ok (), .ok (some r)⟩ fsOk ts cwd).1 =
      .error (.assertionFailed (r.error.getD "Unknown assertion error")) ∧
    (handle_assertion_js stJ action args ⟨tid, .ok (), .ok (some r)⟩ fsOk ts cwd).2.2.2 =
      (if fsOk then
        [{ filePath := assertionDirJs cwd ++ "/" ++
             ("FAIL_" ++ action ++ "_" ++ sanitizeSelectorJs (args.selector.getD "unknown") ++
              "_" ++ ts ++ ".png")
           data := img }]
       else []) := by
  refine ⟨?_, ?_, ?_, ?_⟩
  · simp [handle_assertion_ts, send_ts, h, hst]
  · simp [handle_assertion_ts, send_ts, h, hst, himg, forceScreenshot_selector]
  · simp [handle_assertion_js, send_js, hJ, hst]
  · simp [handle_assertion_js, send_js, hJ, hst, himg, forceScreenshotJs_selector]

set_option maxRecDepth 8000 in
theorem C7_assertion_artifact_witness :
    (handle_assertion_ts { session := some sampleSessTs } "assert_text"
        { selector := some "#login .button" }
        ⟨"t1", .ok (), .ok (some sampleFailReply)⟩ true "20260211T").2.2.2 =
      [{ filePath := "screenshots/failures/FAIL_assert_text__login__button_20260211T.png"
         data := "imgdata" }] ∧
    (handle_assertion_ts { session := some sampleSessTs } "assert_text"
        { selector := some "#login .button" }
        ⟨"t1", .ok (), .ok (some sampleFailReply)⟩ false "20260211T").2.2.2 = [] ∧
    (handle_assertion_js { session := some sampleSessJs } "assert_text"
        { selector := some "#login .button" }
        ⟨"t1", .ok (), .ok (some sampleFailReply)⟩ true "20260211T" "/app").2.2.2 =
      [{ filePath := "/app/screenshots/failures/FAIL_assert_text__login__button_20260211T.png"
         data := "imgdata" }] ∧
    (handle_assertion_js { session := some sampleSessJs } "assert_text"
        { selector := some "#login .button" }
        ⟨"t1", .ok (), .ok (some sampleFailReply)⟩ false "20260211T" "/app").2.2.2 = [] := by
  have h1 := C7_assertion_artifact { session := some sampleSessTs } sampleSessTs
    { session := some sampleSessJs } sampleSessJs
    "assert_text" { selector := some "#login .button" } "t1" true "20260211T" "/app"
    sampleFailReply "imgdata" rfl rfl rfl rfl
  have h2 := C7_assertion_artifact { session := some sampleSessTs } sampleSessTs
    { session := some sampleSessJs } sampleSessJs
    "assert_text" { selector := some "#login .button" } "t1" false "20260211T" "/app"
    sampleFailReply "imgdata" rfl rfl rfl rfl
  refine ⟨?_, ?_, ?_, ?_⟩
  · rw [h1.2.1]
    decide
  · rw [h2.2.1]
    decide
  · rw [h1.2.2.2]
    decide
  · rw [h2.2.2.2]
    decide

/-- Claim C6, counterexample: (a) in the TS client, when the first call of
a video session times out, `_init_sent` stays false, so the *second*
call's enqueued envelope again carries the deferred initialization field
`video = true` — refuting "only on the first call"; (b) in the JS client
there is no initialized flag at all: even after a first *delivered*
reply, the second call's enqueued envelope still carries `browser_type` —
refuting "every subsequently enqueued request envelope omits all of these
fields". -/
theorem C6_counterexample :
    (send_ts { session := some sampleVideoSess } "click" {} 60
        ⟨"t1", .ok (), .ok none⟩).1 = .ok timeoutReply ∧
    (send_ts (send_ts { session := some sampleVideoSess } "click" {} 60
        ⟨"t1", .ok (), .ok none⟩).2.1 "click" {} 60 ⟨"t2", .ok (), .ok none⟩).2.2 =
      [.rpush "ISOAUTOMATE:w1:tasks"
          (mkEnvelope_ts sampleVideoSess false "click" {} "t2" "ISOAUTOMATE:result:t2"),
       .blpop "ISOAUTOMATE:result:t2" 60] ∧
    (mkEnvelope_ts sampleVideoSess false "click" {} "t2" "ISOAUTOMATE:result:t2").video =
      some true ∧
    (send_js (send_js { session := some sampleSessJs } "click" {} 60
        ⟨"t1", .ok (), .ok (some { status := "ok" })⟩).2.1 "click" {} 60
        ⟨"t2", .ok (), .ok none⟩).2.2 =
      [.rpush "ISOAUTOMATE:w1:tasks"
          (mkEnvelope_js sampleSessJs "click" {} "t2" "ISOAUTOMATE:result:t2"),
       .pollGet "ISOAUTOMATE:result:t2"] ∧
    (mkEnvelope_js sampleSessJs "click" {} "t2" "ISOAUTOMATE:result:t2").browser_type =
      some "chrome" := by
  refine ⟨rfl, ?_, rfl, ?_, rfl⟩
  · decide
  · decide

/-- Claim C6 (amended): in the TS client the request envelope is augmented
with the deferred initialization fields on every call made while the
session's `_init_sent` flag is still unset — that is, until the first
*delivered* reply, not merely on the literal first call; the flag is set
exactly when a reply is delivered (it stays unset after a timeout, a
reply-wait transport failure, or an enqueue failure); and once it is set,
every subsequently enqueued envelope omits all of
video/record/profile_id/browser_type (the envelope enqueued by `_send` is
exactly `mkEnvelope_ts` of the current flag).  In the JS client there is
no deferred-initialization mechanism at all: `_send` never changes the
client state, no envelope ever carries video/record/profile_id, and every
envelope carries `browser_type` (the envelope enqueued is exactly
`mkEnvelope_js`). -/
theorem C6_amended (st : ClientTs) (sess : SessionTs) (action : String) (args : Args)
    (t : Nat) (tid : String) (r : Reply) (e : RedisErr)
    (w : Except RedisErr (Option Reply)) (o : SendOracle) (k : String)
    (stJ : ClientJs) (sessJ : SessionJs)
    (h : st.session = some sess) (hJ : stJ.session = some sessJ) :
    ((mkEnvelope_ts sess true action args tid k).video = none ∧
     (mkEnvelope_ts sess true action args tid k).record = none ∧
     (mkEnvelope_ts sess true action args tid k).profile_id = none ∧
     (mkEnvelope_ts sess true action args tid k).browser_type = none) ∧
    ((mkEnvelope_ts sess false action args tid k).video =
        (if sess.video then some true else none) ∧
     (mkEnvelope_ts sess false action args tid k).record =
        (if sess.record then some true else none) ∧
     (mkEnvelope_ts sess false action args tid k).profile_id = sess.profile_id ∧
     (mkEnvelope_ts sess false action args tid k).browser_type =
        (if sess.profile_id.isSome then some sess.browser_type else none)) ∧
    ((send_ts st action args t o).2.2.head? =
      some (.rpush (REDIS_NS ++ sess.worker ++ ":tasks")
        (mkEnvelope_ts sess st.init_sent action args o.taskId
          (REDIS_NS ++ "result:" ++ o.taskId)))) ∧
    ((send_ts st action args t ⟨tid, .ok (), .ok (some r)⟩).2.1.init_sent = true ∧
     (send_ts st action args t ⟨tid, .ok (), .ok none⟩).2.1.init_sent = st.init_sent ∧
     (send_ts st action args t ⟨tid, .ok (), .error e⟩).2.1.init_sent = st.init_sent ∧
     (send_ts st action args t ⟨tid, .error e, w⟩).2.1.init_sent = st.init_sent) ∧
    ((mkEnvelope_js sessJ action args tid k).video = none ∧
     (mkEnvelope_js sessJ action args tid k).record = none ∧
     (mkEnvelope_js sessJ action args tid k).profile_id = none ∧
     (mkEnvelope_js sessJ action args tid k).browser_type = some sessJ.browserType) ∧
    ((send_js stJ action args t o).2.2.head? =
      some (.rpush (REDIS_NS ++ sessJ.worker ++ ":tasks")
        (mkEnvelope_js sessJ action args o.taskId (REDIS_NS ++ "result:" ++ o.taskId)))) ∧
    ((send_js stJ action args t o).2.1 = stJ) := by
  refine ⟨⟨?_, ?_, ?_, ?_⟩, ⟨?_, ?_, ?_, ?_⟩, ?_, ⟨?_, ?_, ?_, ?_⟩, ⟨?_, ?_, ?_, ?_⟩, ?_, ?_⟩
  · simp [mkEnvelope_ts]
  · simp [mkEnvelope_ts]
  · simp [mkEnvelope_ts]
  · simp [mkEnvelope_ts]
  · simp [mkEnvelope_ts]
  · simp [mkEnvelope_ts]
  · simp [mkEnvelope_ts]
  · simp [mkEnvelope_ts]
  · rcases o with ⟨tid0, enq, w0⟩
    cases enq with
    | error e0 => simp [send_ts, h]
    | ok u =>
      cases w0 with
      | error e0 => simp [send_ts, h]
      | ok rr => cases rr with
        | none => simp [send_ts, h]
        | some r0 => simp [send_ts, h]
  · simp [send_ts, h]
  · simp [send_ts, h]
  · simp [send_ts, h]
  · simp [send_ts, h]
  · simp [mkEnvelope_js]
  · simp [mkEnvelope_js]
  · simp [mkEnvelope_js]
  · simp [mkEnvelope_js]
  · rcases o with ⟨tid0, enq, w0⟩
    cases enq with
    | error e0 => simp [send_js, hJ]
    | ok u =>
      cases w0 with
      | error e0 => simp [send_js, hJ]
      | ok rr => cases rr with
        | none => simp [send_js, hJ]
        | some r0 => simp [send_js, hJ]
  · exact send_js_state_id stJ action args t o

theorem C6_amended_witness :
    (mkEnvelope_ts sampleVideoSess true "click" {} "t9" "k9").video = none ∧
    (send_ts { session := some sampleVideoSess } "click" {} 60
        ⟨"t9", .ok (), .ok none⟩).2.1.init_sent = false ∧
    (mkEnvelope_js sampleSessJs "click" {} "t9" "k9").browser_type = some "chrome" ∧
    (send_js { session := some sampleSessJs } "click" {} 60
        ⟨"t9", .ok (), .ok none⟩).2.1 = { session := some sampleSessJs } := by
  have h := C6_amended { session := some sampleVideoSess } sampleVideoSess "click" {} 60
    "t9" timeoutReply sampleErr (.ok none) ⟨"t9", .ok (), .ok none⟩ "k9"
    { session := some sampleSessJs } sampleSessJs rfl rfl
  exact ⟨h.1.1, h.2.2.2.1.2.1, h.2.2.2.2.1.2.2.2, h.2.2.2.2.2.2⟩

/-- Claim C4, counterexample to "retried only when transport-transient, any
other failure propagates immediately on the first attempt": the JS
client's `redisRetry` has no failure classification at all — here it
retries an operation that failed with a plain non-transient error (a
malformed call) and returns the second attempt's success, sleeping one
back-off delay, instead of propagating the error unmodified. -/
theorem C4_counterexample :
    isRedisError nonTransientErr = false ∧
    redisRetry sampleNonTransientOp 3 200 = (.ok 42, [200 * 2 ^ 0]) := by
  exact ⟨by decide, rfl⟩

/-- Claim C4 (amended): the TS client's `withRedisRetry` retries only
failures classified transport-transient by `isRedisError` — any other
failure propagates immediately on the first attempt with no back-off —
while the JS client's `redisRetry` retries every failure; in both, the
delay before retry n is `baseBackoff * 2 ^ (n - 1)`, the number of
*retries* is capped at `maxAttempts` (so up to `maxAttempts + 1`
executions), and exhausting the retries re-raises the last error; in
particular an operation failing transiently k ≤ maxAttempts times then
succeeding returns the successful result. -/
theorem C4_amended {A : Type} (op : Nat → Except RedisErr A) (n k : Nat) (b : Rat) (a : A)
    (e : RedisErr) (eF : Nat → RedisErr) :
    (op 0 = .error e → isRedisError e = false →
      withRedisRetry op n b = (.error e, [])) ∧
    (k ≤ n → (∀ j, j < k → ∃ e0, op j = .error e0 ∧ isRedisError e0 = true) →
      op k = .ok a →
      withRedisRetry op n b = (.ok a, (List.range k).map (fun j => b * 2 ^ j))) ∧
    ((∀ j, j ≤ n → op j = .error (eF j) ∧ isRedisError (eF j) = true) →
      withRedisRetry op n b = (.error (eF n), (List.range n).map (fun j => b * 2 ^ j))) ∧
    (k ≤ n → (∀ j, j < k → ∃ e0, op j = .error e0) → op k = .ok a →
      redisRetry op n b = (.ok a, (List.range k).map (fun j => b * 2 ^ j))) ∧
    ((∀ j, j ≤ n → op j = .error (eF j)) →
      redisRetry op n b = (.error (eF n), (List.range n).map (fun j => b * 2 ^ j))) := by
  refine ⟨?_, ?_, ?_, ?_, ?_⟩
  · intro h1 h2
    rw [withRedisRetry]
    exact retryGo_step_nonT op isRedisError b n 0 e h1 h2
  · intro hk hf hok
    rw [withRedisRetry]
    have hres := retryGo_ok_of op isRedisError b a k 0 n hk
      (by intro j hj; simpa [Nat.zero_add] using hf j hj)
      (by simpa [Nat.zero_add] using hok)
    simpa [Nat.zero_add] using hres
  · intro hf
    rw [withRedisRetry]
    have hres := retryGo_exhausts op isRedisError b eF n 0
      (by intro j hj; simpa [Nat.zero_add] using hf j hj)
    simpa [Nat.zero_add] using hres
  · intro hk hf hok
    rw [redisRetry]
    have hres := retryGo_ok_of op (fun _ => true) b a k 0 n hk
      (by intro j hj
          obtain ⟨e0, he0⟩ := hf j hj
          exact ⟨e0, by simpa [Nat.zero_add] using he0, rfl⟩)
      (by simpa [Nat.zero_add] using hok)
    simpa [Nat.zero_add] using hres
  · intro hf
    rw [redisRetry]
    have hres := retryGo_exhausts op (fun _ => true) b eF n 0
      (by intro j hj; exact ⟨by simpa [Nat.zero_add] using hf j hj, rfl⟩)
    simpa [Nat.zero_add] using hres

theorem C4_amended_witness :
    withRedisRetry sampleFlakyOp 3 (2/10) =
      (.ok 42, (List.range 2).map (fun j => (2/10 : Rat) * 2 ^ j)) ∧
    withRedisRetry sampleFailingOp 3 (2/10) =
      (.error transientErr, (List.range 3).map (fun j => (2/10 : Rat) * 2 ^ j)) ∧
    withRedisRetry sampleNonTransientOp 3 (2/10) = (.error nonTransientErr, []) ∧
    redisRetry sampleFailingOp 3 200 =
      (.error transientErr, (List.range 3).map (fun j => (200 : Rat) * 2 ^ j)) := by
  have h1 := C4_amended (A := Nat) sampleFlakyOp 3 2 (2/10) 42 nonTransientErr
    (fun _ => transientErr)
  have h2 := C4_amended (A := Nat) sampleFailingOp 3 0 (2/10) 42 nonTransientErr
    (fun _ => transientErr)
  have h3 := C4_amended (A := Nat) sampleNonTransientOp 3 0 (2/10) 42 nonTransientErr
    (fun _ => transientErr)
  have h4 := C4_amended (A := Nat) sampleFailingOp 3 0 200 42 nonTransientErr
    (fun _ => transientErr)
  refine ⟨?_, ?_, ?_, ?_⟩
  · exact h1.2.1 (by omega)
      (fun j hj => ⟨transientErr, by simp [sampleFlakyOp, hj], by decide⟩)
      (by decide)
  · exact h2.2.2.1 (fun j hj => ⟨rfl, by decide⟩)
  · exact h3.1 rfl (by decide)
  · exact h4.2.2.2.2 (fun j hj => rfl)

theorem send_ts_trace_actions (st : ClientTs) (action : String) (args : Args)
    (t : Nat) (o : SendOracle) :
    ∀ q env, BrokerOp.rpush q env ∈ (send_ts st action args t o).2.2 → env.action = action := by
  intro q env hmem
  rw [send_ts] at hmem
  cases hs : st.session with
  | none => rw [hs] at hmem; simp at hmem
  | some sess =>
    rw [hs] at hmem
    rcases o with ⟨tid, enq, wq⟩
    cases enq with
    | error e =>
      simp only [List.mem_singleton] at hmem
      rw [show env = mkEnvelope_ts sess st.init_sent action args tid
            (REDIS_NS ++ "result:" ++ tid) from by injection hmem]
      rfl
    | ok u =>
      cases wq with
      | error e =>
        simp only [List.mem_cons, List.not_mem_nil, or_false] at hmem
        rcases hmem with hmem | hmem
        · rw [show env = mkEnvelope_ts sess st.init_sent action args tid
              (REDIS_NS ++ "result:" ++ tid) from by injection hmem]
          rfl
        · exact absurd hmem (by simp)
      | ok rq =>
        cases rq with
        | none =>
          simp only [List.mem_cons, List.not_mem_nil, or_false] at hmem
          rcases hmem with hmem | hmem
          · rw [show env = mkEnvelope_ts sess st.init_sent action args tid
                (REDIS_NS ++ "result:" ++ tid) from by injection hmem]
            rfl
          · exact absurd hmem (by simp)
        | some rr =>
          simp only [List.mem_cons, List.not_mem_nil, or_false] at hmem
          rcases hmem with hmem | hmem
          · rw [show env = mkEnvelope_ts sess st.init_sent action args tid
                (REDIS_NS ++ "result:" ++ tid) from by injection hmem]
            rfl
          · exact absurd hmem (by simp)

/-- Claim C9: in both client variants `acquire()` never reads the currently
held session: its result, pool effect and broker trace are identical
whether or not a lease is already held (so it neither fails because of,
nor releases, the current lease); no `release_browser` RPC ever appears
in its trace (the only RPC the TS acquire can issue is the implicit
`get_title` init call, and the only one the JS acquire can issue is
`start_recording`); the previously held browser's remote busy-set entry
is preserved; and on success the local session record is simply
overwritten by the new lease. -/
theorem C9_acquire_ignores_held_lease (st : ClientTs) (oldSess : SessionTs) (pool : Pool)
    (order : List String) (bt : String) (video : Bool) (profile : ProfileOpt) (record : Bool)
    (stored : Option String) (fresh : String) (luaErr : Option RedisErr) (o : SendOracle)
    (stJ : ClientJs) (oldSessJ : SessionJs) (recJ : Bool) (oJ : SendOracle)
    (h : st.session = some oldSess) (hJ : stJ.session = some oldSessJ) :
    ((acquire_ts st pool order bt video profile record stored fresh luaErr o).1 =
      (acquire_ts { st with session := none } pool order bt video profile record stored fresh
        luaErr o).1) ∧
    ((acquire_ts st pool order bt video profile record stored fresh luaErr o).2.2 =
      (acquire_ts { st with session := none } pool order bt video profile record stored fresh
        luaErr o).2.2) ∧
    (∀ b, b ∈ (pool oldSess.worker oldSess.browser_type).busy →
      b ∈ ((acquire_ts st pool order bt video profile record stored fresh luaErr o).2.2.1
            oldSess.worker oldSess.browser_type).busy) ∧
    (∀ q env,
      BrokerOp.rpush q env ∈
        (acquire_ts st pool order bt video profile record stored fresh luaErr o).2.2.2 →
      env.action = "get_title") ∧
    (∀ r, (acquire_ts st pool order bt video profile record stored fresh luaErr o).1 = .ok r →
      (acquire_ts st pool order bt video profile record stored fresh luaErr o).2.1.session =
        some { browser_id := (((luaAcquire order bt pool).1.getD ("", "")).2 : String)
               worker := ((luaAcquire order bt pool).1.getD ("", "")).1
               browser_type := bt, video := video
               profile_id := resolveProfileId profile stored fresh, record := record }) ∧
    ((acquire_js stJ pool order bt recJ oJ).1 =
      (acquire_js { stJ with session := none } pool order bt recJ oJ).1) ∧
    ((acquire_js stJ pool order bt recJ oJ).2.2 =
      (acquire_js { stJ with session := none } pool order bt recJ oJ).2.2) ∧
    (∀ b, b ∈ (pool oldSessJ.worker oldSessJ.browserType).busy →
      b ∈ ((acquire_js stJ pool order bt recJ oJ).2.2.1
            oldSessJ.worker oldSessJ.browserType).busy) ∧
    (∀ q env,
      BrokerOp.rpush q env ∈ (acquire_js stJ pool order bt recJ oJ).2.2.2 →
      env.action = "start_recording") ∧
    (∀ r, (acquire_js stJ pool order bt recJ oJ).1 = .ok r →
      (acquire_js stJ pool order bt recJ oJ).2.1.session =
        some { browserId := (((acquire_js_pool order bt pool).1.getD ("", "")).2 : String)
               worker := ((acquire_js_pool order bt pool).1.getD ("", "")).1
               browserType := bt, record := recJ }) := by
  refine ⟨?_, ?_, ?_, ?_, ?_, ?_, ?_, ?_, ?_, ?_⟩
  · cases hl : luaErr with
    | some e => simp [acquire_ts]
    | none =>
      rcases hla : luaAcquire order bt pool with ⟨res, p1⟩
      cases res with
      | none => simp [acquire_ts, hla]
      | some wb =>
        obtain ⟨w, bid⟩ := wb
        simp only [acquire_ts, hla]
  · cases hl : luaErr with
    | some e => simp [acquire_ts]
    | none =>
      rcases hla : luaAcquire order bt pool with ⟨res, p1⟩
      cases res with
      | none => simp [acquire_ts, hla]
      | some wb =>
        obtain ⟨w, bid⟩ := wb
        simp only [acquire_ts, hla]
  · intro b hb
    cases hl : luaErr with
    | some e => simpa [acquire_ts] using hb
    | none =>
      have hm := luaAcquire_busy_mono bt order pool oldSess.worker oldSess.browser_type b hb
      rcases hla : luaAcquire order bt pool with ⟨res, p1⟩
      rw [hla] at hm
      cases res with
      | none => simpa [acquire_ts, hla] using hm
      | some wb =>
        obtain ⟨w, bid⟩ := wb
        simp only [acquire_ts, hla]
        split
        · split <;> exact hm
        · exact hm
  · intro q env hmem
    cases hl : luaErr with
    | some e => simp [acquire_ts, hl] at hmem
    | none =>
      rcases hla : luaAcquire order bt pool with ⟨res, p1⟩
      cases res with
      | none => simp [acquire_ts, hl, hla] at hmem
      | some wb =>
        obtain ⟨w, bid⟩ := wb
        simp only [acquire_ts, hl, hla] at hmem
        split at hmem
        · split at hmem
          · rename_i e0 st2 tr heq
            exact send_ts_trace_actions _ "get_title" {} 60 o q env
              (by rw [heq]; simpa using hmem)
          · rename_i r0 st2 tr heq
            exact send_ts_trace_actions _ "get_title" {} 60 o q env
              (by rw [heq]; simpa using hmem)
        · simp at hmem
  · intro r hr
    cases hl : luaErr with
    | some e => simp [acquire_ts, hl] at hr
    | none =>
      rcases hla : luaAcquire order bt pool with ⟨res, p1⟩
      cases res with
      | none => simp [acquire_ts, hl, hla] at hr
      | some wb =>
        obtain ⟨w, bid⟩ := wb
        simp only [acquire_ts, hl, hla] at hr ⊢
        split at hr
        · split at hr
          · rename_i e0 st2 tr heq
            exact absurd hr (by simp)
          · rename_i hcond hx r0 st2 tr heq
            rw [if_pos hcond]
            exact ((congrArg (fun z => z.2.1.session) heq).symm.trans
              (send_ts_preserves_session _ "get_title" {} 60 o))
        · rename_i hcond
          rw [if_neg hcond]
          rfl
  · rcases hla : acquire_js_pool order bt pool with ⟨res, p1⟩
    cases res with
    | none => simp [acquire_js, hla]
    | some wb =>
      obtain ⟨w, bid⟩ := wb
      simp only [acquire_js, hla]
  · rcases hla : acquire_js_pool order bt pool with ⟨res, p1⟩
    cases res with
    | none => simp [acquire_js, hla]
    | some wb =>
      obtain ⟨w, bid⟩ := wb
      simp only [acquire_js, hla]
  · intro b hb
    have hm := acquire_js_busy_mono bt order pool oldSessJ.worker oldSessJ.browserType b hb
    rcases hla : acquire_js_pool order bt pool with ⟨res, p1⟩
    rw [hla] at hm
    cases res with
    | none => simpa [acquire_js, hla] using hm
    | some wb =>
      obtain ⟨w, bid⟩ := wb
      simp only [acquire_js, hla]
      split
      · split <;> exact hm
      · exact hm
  · intro q env hmem
    rcases hla : acquire_js_pool order bt pool with ⟨res, p1⟩
    cases res with
    | none => simp [acquire_js, hla] at hmem
    | some wb =>
      obtain ⟨w, bid⟩ := wb
      simp only [acquire_js, hla] at hmem
      split at hmem
      · split at hmem
        · rename_i e0 st2 tr heq
          exact send_js_trace_actions _ "start_recording" {} 5 oJ q env
            (by rw [heq]; simpa using hmem)
        · rename_i r0 st2 tr heq
          exact send_js_trace_actions _ "start_recording" {} 5 oJ q env
            (by rw [heq]; simpa using hmem)
      · simp at hmem
  · intro r hr
    rcases hla : acquire_js_pool order bt pool with ⟨res, p1⟩
    cases res with
    | none => simp [acquire_js, hla] at hr
    | some wb =>
      obtain ⟨w, bid⟩ := wb
      simp only [acquire_js, hla] at hr ⊢
      split at hr
      · split at hr
        · rename_i e0 st2 tr heq
          exact absurd hr (by simp)
        · rename_i hcond hx r0 st2 tr heq
          rw [if_pos hcond]
          exact ((congrArg (fun z => z.2.1.session) heq).symm.trans
            (congrArg (fun c => c.session) (send_js_state_id _ "start_recording" {} 5 oJ)))
      · rename_i hcond
        rw [if_neg hcond]
        rfl

theorem C9_acquire_ignores_held_lease_witness :
    "x0" ∈ ((acquire_ts
        { session := some { browser_id := "x0"
                            worker := "w0"
                            browser_type := "chrome"
                            video := false
                            profile_id := none
                            record := false } }
        samplePool ["w1"] "chrome" false .off false none "fresh1" none
        ⟨"t1", .ok (), .ok none⟩).2.2.1 "w0" "chrome").busy ∧
    "x0" ∈ ((acquire_js
        { session := some { browserId := "x0"
                            worker := "w0"
                            browserType := "chrome"
                            record := false } }
        samplePool ["w1"] "chrome" false
        ⟨"t1", .ok (), .ok none⟩).2.2.1 "w0" "chrome").busy := by
  have h := C9_acquire_ignores_held_lease
    { session := some { browser_id := "x0"
                        worker := "w0"
                        browser_type := "chrome"
                        video := false
                        profile_id := none
                        record := false } }
    { browser_id := "x0"
      worker := "w0"
      browser_type := "chrome"
      video := false
      profile_id := none
      record := false }
    samplePool ["w1"] "chrome" false .off false none "fresh1" none
    ⟨"t1", .ok (), .ok none⟩
    { session := some { browserId := "x0"
                        worker := "w0"
                        browserType := "chrome"
                        record := false } }
    { browserId := "x0"
      worker := "w0"
      browserType := "chrome"
      record := false }
    false ⟨"t1", .ok (), .ok none⟩ rfl rfl
  exact ⟨h.2.2.1 "x0" (by decide), h.2.2.2.2.2.2.2.1 "x0" (by decide)⟩

/-- Claim C1, counterexample for the JS client: its `acquire` issues the
SPOP and the SADD as two separate broker commands, so the pool state
between them — in which the popped browser id `b1` is in *neither* the
free nor the busy collection — is observable by every other client: the
removal and the insertion are not one single server-side atomic step. -/
theorem C1_counterexample :
    (spopAt samplePool "w1" "chrome").1 = some "b1" ∧
    "b1" ∉ ((spopAt samplePool "w1" "chrome").2 "w1" "chrome").free ∧
    "b1" ∉ ((spopAt samplePool "w1" "chrome").2 "w1" "chrome").busy ∧
    acquire_js_states ["w1"] "chrome" samplePool =
      [samplePool, (spopAt samplePool "w1" "chrome").2,
       saddBusyAt (spopAt samplePool "w1" "chrome").2 "w1" "chrome" "b1"] := by
  refine ⟨rfl, by decide, by decide, rfl⟩

/-- Claim C1 (amended): in the TS client the whole pop-and-move runs as one
Lua script, i.e. one server-side atomic step: whenever it claims
`(w, b)`, `b` stood in that worker's free collection in the pre-state and
stands in its busy collection in the post-state, no other (worker, type)
key is touched, and no intermediate state exists; two (linearized)
executions of the script never claim the same (worker, browser_id) pair
when the free sets hold no duplicates.  In the JS client the SPOP itself
is still atomic, so two JS acquires also never claim the same pair — but
the busy insertion is a separate command (see the counterexample). -/
theorem C1_amended (p p1 p2 : Pool) (t : String) (ws ws' : List String)
    (w1 b1 w2 b2 : String) :
    (luaAcquire ws t p = (some (w1, b1), p1) →
      (p w1 t).free = b1 :: (p1 w1 t).free ∧ (p1 w1 t).busy = b1 :: (p w1 t).busy ∧
      (∀ w' t', ¬(w' = w1 ∧ t' = t) → p1 w' t' = p w' t')) ∧
    (luaAcquire ws t p = (some (w1, b1), p1) → luaAcquire ws' t p1 = (some (w2, b2), p2) →
      (∀ w0, ((p w0 t).free).Nodup) → ¬(w1 = w2 ∧ b1 = b2)) ∧
    (acquire_js_pool ws t p = (some (w1, b1), p1) →
      acquire_js_pool ws' t p1 = (some (w2, b2), p2) →
      (∀ w0, ((p w0 t).free).Nodup) → ¬(w1 = w2 ∧ b1 = b2)) := by
  refine ⟨fun h1 => luaAcquire_pops t ws p p1 w1 b1 h1, ?_, ?_⟩
  · intro h1 h2 hnd
    obtain ⟨hf1, _, _⟩ := luaAcquire_pops t ws p p1 w1 b1 h1
    obtain ⟨hf2, _, _⟩ := luaAcquire_pops t ws' p1 p2 w2 b2 h2
    exact pop_pair_distinct p p1 t w1 b1 w2 b2 hf1
      (by rw [hf2]; exact List.mem_cons_self _ _) (hnd w1)
  · intro h1 h2 hnd
    obtain ⟨hf1, _, _⟩ := acquire_js_pops t ws p p1 w1 b1 h1
    obtain ⟨hf2, _, _⟩ := acquire_js_pops t ws' p1 p2 w2 b2 h2
    exact pop_pair_distinct p p1 t w1 b1 w2 b2 hf1
      (by rw [hf2]; exact List.mem_cons_self _ _) (hnd w1)

theorem C1_amended_witness :
    (samplePool "w1" "chrome").free =
      "b1" :: ((luaAcquire ["w1"] "chrome" samplePool).2 "w1" "chrome").free ∧
    ¬(("w1" : String) = "w1" ∧ ("b1" : String) = "b2") := by
  have h := C1_amended samplePool (luaAcquire ["w1"] "chrome" samplePool).2
    (luaAcquire ["w1"] "chrome" (luaAcquire ["w1"] "chrome" samplePool).2).2
    "chrome" ["w1"] ["w1"] "w1" "b1" "w1" "b2"
  have hnd : ∀ w0, ((samplePool w0 "chrome").free).Nodup := by
    intro w0
    simp only [samplePool]
    split
    · decide
    · split
      · decide
      · decide
  exact ⟨(h.1 rfl).1, h.2.1 rfl rfl hnd⟩
